import Mathlib

/-!
Shallow embedding of the `waitx` SPSC toolkit (the non-loom configuration,
which is the one compiled for real targets).

Source map:
* `src/pair.rs` — the shared state of a wake-pair (`Inner { counter, wake, waiting }`
  plus the Waiter-side ticket `next`) is modelled by `PairState`; `Waker::signal`,
  `Waker::wake`, `Waiter::try_wait` are modelled by the functions of the same
  names; `Waiter::wait_with_tuning` is modelled in two ways: `Waiter.waitStep`
  (sequential semantics: the call returns exactly when the target is already
  reached, otherwise it blocks awaiting an external signal, modelled as `none`)
  and `waitRun` (an instrumented run of the full three-phase adaptive wait of
  `src/util.rs::wait_until_with_tuning`, recording the value of the `waiting`
  flag at every predicate check, with explicit fuel bounding phase 3).
* `src/channel.rs` — the shared state of the channel (`Slot<T>` plus the fill-pair
  and the drain-pair) is modelled by `Chan`; `channel`, `Sender::send`,
  `Sender::try_send`, `Receiver::recv` are modelled by `chanInit`, `sendOp`,
  `trySendOp`, `recvOp`.

The `u64` / `u32` atomics are modelled as `Nat` with explicit reduction
modulo `2 ^ 64` / `2 ^ 32` at each wrapping increment.
-/

/-- Modulus of `u64` arithmetic. -/
def U64 : Nat := 2 ^ 64

/-- Modulus of `u32` arithmetic. -/
def U32 : Nat := 2 ^ 32

/-- State shared by one wake-pair (`src/pair.rs`): the `Inner` fields
`counter : AtomicU64`, `wake : AtomicU32`, `waiting : AtomicBool`, together
with the Waiter-side ticket counter `next : AtomicU64`. -/
structure PairState where
  counter : Nat
  wakeWord : Nat
  waiting : Bool
  next : Nat
deriving Repr, DecidableEq

/-- Model of `pair()` (`src/pair.rs`): all fields start at their defaults (zero / false). -/
def pairInit : PairState :=
  { counter := 0, wakeWord := 0, waiting := false, next := 0 }

/-- Model of `Waker::signal` (`src/pair.rs` lines 56–69, non-loom branch): wrapping
increment of `counter`, wrapping increment of the `wake` word, then
`atomic_wait::wake_one` (no shared-state effect). -/
def Waker.signal (s : PairState) : PairState :=
  { s with
    counter := (s.counter + 1) % U64
    wakeWord := (s.wakeWord + 1) % U32 }

/-- Model of `Waker::wake` (`src/pair.rs` lines 73–83, non-loom branch): acquire-load of
`waiting`; delegate to `signal` if it reads true, otherwise do nothing. -/
def Waker.wake (s : PairState) : PairState :=
  if s.waiting then Waker.signal s else s

/-- The operation `signal` iterated `K` times. -/
def signalN : Nat → PairState → PairState
  | 0, s => s
  | k + 1, s => signalN k (Waker.signal s)

/-- Model of `Waiter::try_wait` (`src/pair.rs` lines 129–144): `target = next + 1`
(wrapping); if `counter ≥ target` then advance `next` by one (wrapping) and
return true, else return false leaving the state untouched. -/
def Waiter.tryWait (s : PairState) : Bool × PairState :=
  let target := (s.next + 1) % U64
  if target ≤ s.counter then
    (true, { s with next := (s.next + 1) % U64 })
  else
    (false, s)

/-- Model of `Waiter::wait_with_tuning` (`src/pair.rs` lines 95–119), sequential
semantics: the ticket is claimed (`next` advanced by one, wrapping) and the
call returns iff `counter ≥ target` already holds; with no concurrent
signaller the blocking branch never finishes, modelled as `none`. -/
def Waiter.waitStep (s : PairState) : Option PairState :=
  let target := (s.next + 1) % U64
  let s' := { s with next := (s.next + 1) % U64 }
  if target ≤ s'.counter then some s' else none

/-- The operation `wait` iterated `K` times (sequential semantics), failing if any call blocks. -/
def waitN : Nat → PairState → Option PairState
  | 0, s => some s
  | k + 1, s => (Waiter.waitStep s).bind (waitN k)

/-- Phase of the adaptive wait in which a predicate check happens:
the fast-path check of `wait_with_tuning` (before the `WaitingGuard` exists),
or one of the three phases of `wait_until_with_tuning` (`src/util.rs`). -/
inductive WaitPhase where
  | fastCheck
  | busySpin
  | yieldSpin
  | blockPhase
deriving Repr, DecidableEq

/-- One predicate check of the adaptive wait, together with the value the
`waiting` flag holds while that check runs. -/
structure WaitObs where
  phase : WaitPhase
  waitingFlag : Bool
deriving Repr, DecidableEq

/-- A bounded loop of predicate checks (one of the phases of
`wait_until_with_tuning`): `cs j` is the value of `counter` observed at the
`j`-th acquire load of this wait call; the `waiting` flag is true during all
of these checks because the `WaitingGuard` was created before
`wait_until_with_tuning` was entered. Returns the observations made, whether
the predicate was seen true, and the next load index. -/
def spinChecks (cs : Nat → Nat) (target : Nat) (ph : WaitPhase) :
    Nat → Nat → List WaitObs × Bool × Nat
  | j, 0 => ([], false, j)
  | j, n + 1 =>
    if target ≤ cs j then
      ([⟨ph, true⟩], true, j + 1)
    else
      let r := spinChecks cs target ph (j + 1) n
      (⟨ph, true⟩ :: r.1, r.2.1, r.2.2)

/-- Outcome of one instrumented run of `Waiter::wait_with_tuning`. -/
structure WaitRun where
  trace : List WaitObs
  returned : Bool
  flagEnd : Bool
deriving Repr, DecidableEq

/-- Instrumented run of `Waiter::wait_with_tuning` for an already-claimed
`target`, with the `waiting` flag starting false (its value whenever the pair
is not inside a wait). The fast-path check (`src/pair.rs` line 100) runs with
`waiting = false`; if it fails, `WaitingGuard::new` stores true and
`wait_until_with_tuning` (`src/util.rs`) runs its busy-spin phase
(`busy` checks), its yield phase (`yld` checks) and then the futex phase,
which performs two predicate checks per iteration (`fuel` bounds the
iterations of this otherwise unbounded loop). On every return path the guard
drop resets the flag to false. `cs j` is the counter value observed at the
`j`-th load. -/
def waitRun (cs : Nat → Nat) (target busy yld fuel : Nat) : WaitRun :=
  if target ≤ cs 0 then
    ⟨[⟨WaitPhase.fastCheck, false⟩], true, false⟩
  else
    let p1 := spinChecks cs target WaitPhase.busySpin 1 busy
    if p1.2.1 then
      ⟨⟨WaitPhase.fastCheck, false⟩ :: p1.1, true, false⟩
    else
      let p2 := spinChecks cs target WaitPhase.yieldSpin p1.2.2 yld
      if p2.2.1 then
        ⟨⟨WaitPhase.fastCheck, false⟩ :: (p1.1 ++ p2.1), true, false⟩
      else
        let p3 := spinChecks cs target WaitPhase.blockPhase p2.2.2 (2 * fuel)
        ⟨⟨WaitPhase.fastCheck, false⟩ :: (p1.1 ++ p2.1 ++ p3.1), p3.2.1,
          if p3.2.1 then false else true⟩

/-- Shared state of one rendezvous channel (`src/channel.rs`): the slot
(`inner : UnsafeCell<MaybeUninit<T>>` modelled as `Option`, and the atomic
`full` flag) plus the two wake-pairs. `fill` is the pair whose Waker the
Sender holds (`tx_1`/`rx_1`), `drain` the pair whose Waker the Receiver holds
(`tx_2`/`rx_2`). Reading the slot does not erase the stored bits, exactly as
`assume_init_read` does not. -/
structure Chan (α : Type) where
  slotVal : Option α
  full : Bool
  fill : PairState
  drain : PairState
deriving DecidableEq

/-- Model of `channel()` (`src/channel.rs` lines 137–157): fresh slot, two fresh pairs,
then `rx.0.tx.signal()` — one signal on the drain-pair before the endpoints
are handed out. -/
def chanInit {α : Type} : Chan α :=
  { slotVal := none, full := false, fill := pairInit, drain := Waker.signal pairInit }

/-- Model of `Sender::send` (`src/channel.rs` lines 70–84), sequential semantics:
wait on the drain-pair, write the value, `mark_full`, then `signal` the
fill-pair. `none` models the call blocking forever. -/
def sendOp {α : Type} (c : Chan α) (v : α) : Option (Chan α) :=
  match Waiter.waitStep c.drain with
  | none => none
  | some d =>
    some { c with drain := d, slotVal := some v, full := true, fill := Waker.signal c.fill }

/-- Model of `Sender::try_send` (`src/channel.rs` lines 87–99): if `try_wait` on the
drain-pair fails, give the value back as `Err`; otherwise write, `mark_full`,
and `wake` (not `signal`) the fill-pair. -/
def trySendOp {α : Type} (c : Chan α) (v : α) : Except α Unit × Chan α :=
  let r := Waiter.tryWait c.drain
  if r.1 then
    (Except.ok (), { c with drain := r.2, slotVal := some v, full := true, fill := Waker.wake c.fill })
  else
    (Except.error v, c)

deriving instance DecidableEq for Except

/-- Model of `Receiver::recv` (`src/channel.rs` lines 111–134), sequential semantics:
wait on the fill-pair, then `get`: move the value out of the slot,
`mark_empty`, `signal` the drain-pair. `none` models the call blocking
(reading an uninitialized slot, which cannot happen in a valid trace, is also
mapped to `none`). -/
def recvOp {α : Type} (c : Chan α) : Option (α × Chan α) :=
  match Waiter.waitStep c.fill with
  | none => none
  | some f =>
    match c.slotVal with
    | none => none
    | some v =>
      some (v, { c with fill := f, full := false, drain := Waker.signal c.drain })

/-- Alternating driver: `send v; recv()` for each value of the list, returning
the received values; fails if any call blocks. -/
def runPingPong {α : Type} : Chan α → List α → Option (List α)
  | _, [] => some []
  | c, v :: vs =>
    match sendOp c v with
    | none => none
    | some c1 =>
      match recvOp c1 with
      | none => none
      | some (w, c2) =>
        match runPingPong c2 vs with
        | none => none
        | some ws => some (w :: ws)

/-- Number of payload-destructor runs performed by `Slot::drop`
(`src/channel.rs` lines 41–50): the stored value is dropped iff `full`. -/
def slotDropRuns {α : Type} (c : Chan α) : Nat :=
  if c.full then 1 else 0

/-- Payload-destructor runs observed right after dropping the Receiver
endpoint: the slot lives in an `Arc` shared by both endpoints, so it is
destroyed (running `Slot::drop`) only when the Sender endpoint is already
gone as well. -/
def dropsAfterReceiverDrop {α : Type} (senderAlive : Bool) (c : Chan α) : Nat :=
  if senderAlive then 0 else slotDropRuns c

/-! ### Helper lemmas -/

lemma spinChecks_mem (cs : Nat → Nat) (target : Nat) (ph : WaitPhase) :
    ∀ (n j : Nat), ∀ o ∈ (spinChecks cs target ph j n).1, o = ⟨ph, true⟩ := by
  intro n
  induction n with
  | zero => intro j o ho; simp [spinChecks] at ho
  | succ n ih =>
    intro j o ho
    by_cases h : target ≤ cs j
    · simp [spinChecks, h] at ho
      simp [ho]
    · simp [spinChecks, h] at ho
      rcases ho with ho | ho
      · simp [ho]
      · exact ih (j + 1) o ho

lemma signalN_spec (K : Nat) : ∀ (s : PairState), s.counter + K < U64 →
    (signalN K s).counter = s.counter + K ∧ (signalN K s).next = s.next ∧
      (signalN K s).waiting = s.waiting := by
  induction K with
  | zero => intro s _; simp [signalN]
  | succ k ih =>
    intro s hb
    have h1 : (s.counter + 1) % U64 = s.counter + 1 := Nat.mod_eq_of_lt (by omega)
    have hb' : (Waker.signal s).counter + k < U64 := by
      simp [Waker.signal, h1]; omega
    obtain ⟨h2, h3, h4⟩ := ih (Waker.signal s) hb'
    refine ⟨?_, ?_, ?_⟩
    · simp only [signalN]; rw [h2]; simp [Waker.signal, h1]; omega
    · simp only [signalN]; rw [h3]; simp [Waker.signal]
    · simp only [signalN]; rw [h4]; simp [Waker.signal]

lemma waitN_spec (K : Nat) : ∀ (s : PairState), s.next + K ≤ s.counter →
    s.counter < U64 → waitN K s = some { s with next := s.next + K } := by
  induction K with
  | zero => intro s _ _; simp [waitN]
  | succ k ih =>
    intro s hle hlt
    have h1 : (s.next + 1) % U64 = s.next + 1 := Nat.mod_eq_of_lt (by omega)
    have hstep : Waiter.waitStep s = some { s with next := s.next + 1 } := by
      simp [Waiter.waitStep, h1]
      omega
    have := ih { s with next := s.next + 1 } (by simp; omega) (by simp; omega)
    simp [waitN, hstep, this]
    omega

/-! ### Claims -/

/-- Claim C7: `wake()` delegates to `signal()` exactly when the `waiting`
flag reads true (incrementing the counter and the wake word), and performs no
state change at all when the flag reads false. -/
theorem waitx_C7 (s : PairState) :
    (s.waiting = true → Waker.wake s = Waker.signal s) ∧
      (s.waiting = false → Waker.wake s = s) := by
  constructor
  · intro h; simp [Waker.wake, h]
  · intro h; simp [Waker.wake, h]

/-- Witness for C7 at two concrete states: the flag-false case at `pairInit`
(no state change), and the flag-true case. -/
theorem waitx_C7_witness :
    (pairInit.waiting = false ∧ Waker.wake pairInit = pairInit) ∧
      ((Waker.signal pairInit).waiting = false ∧
        Waker.wake (Waker.signal pairInit) = Waker.signal pairInit) :=
  ⟨⟨by decide, (waitx_C7 pairInit).2 (by decide)⟩,
    ⟨by decide, (waitx_C7 (Waker.signal pairInit)).2 (by decide)⟩⟩

/-- Claim C10: a failed `try_wait` leaves the ticket counter `next` untouched;
a successful `try_wait`, and every returning `wait`/`wait_with_tuning`,
advances `next` by exactly one (the wrapping `u64` increment, which is a plain
increment whenever `next + 1 < 2 ^ 64`). -/
theorem waitx_C10 (s : PairState) :
    ((Waiter.tryWait s).1 = false → (Waiter.tryWait s).2 = s) ∧
      ((Waiter.tryWait s).1 = true → (Waiter.tryWait s).2.next = (s.next + 1) % U64) ∧
      (∀ t, Waiter.waitStep s = some t → t.next = (s.next + 1) % U64) ∧
      (s.next + 1 < U64 →
        ((Waiter.tryWait s).1 = true → (Waiter.tryWait s).2.next = s.next + 1) ∧
          (∀ t, Waiter.waitStep s = some t → t.next = s.next + 1)) := by
  by_cases h : (s.next + 1) % U64 ≤ s.counter
  · refine ⟨?_, ?_, ?_, ?_⟩
    · intro hf; simp [Waiter.tryWait, h] at hf
    · intro _; simp [Waiter.tryWait, h]
    · intro t ht
      simp [Waiter.waitStep, h] at ht
      rw [← ht]
    · intro hov
      have h1 : (s.next + 1) % U64 = s.next + 1 := Nat.mod_eq_of_lt hov
      have h2 : s.next + 1 ≤ s.counter := by rwa [h1] at h
      constructor
      · intro _; simp [Waiter.tryWait, h1, h2]
      · intro t ht
        simp [Waiter.waitStep, h] at ht
        rw [← ht]; simp [h1]
  · refine ⟨?_, ?_, ?_, ?_⟩
    · intro _; simp [Waiter.tryWait, h]
    · intro ht; simp [Waiter.tryWait, h] at ht
    · intro t ht; simp [Waiter.waitStep, h] at ht
    · intro _
      constructor
      · intro ht; simp [Waiter.tryWait, h] at ht
      · intro t ht; simp [Waiter.waitStep, h] at ht

/-- Witness for C10: a failed `try_wait` on the fresh pair changes nothing,
and a successful `try_wait` after one `signal` advances the ticket by one. -/
theorem waitx_C10_witness :
    ((Waiter.tryWait pairInit).1 = false ∧ (Waiter.tryWait pairInit).2 = pairInit) ∧
      ((Waiter.tryWait (Waker.signal pairInit)).1 = true ∧
        (Waiter.tryWait (Waker.signal pairInit)).2.next =
          ((Waker.signal pairInit).next + 1) % U64) :=
  ⟨⟨by decide, (waitx_C10 pairInit).1 (by decide)⟩,
    ⟨by decide, (waitx_C10 (Waker.signal pairInit)).2.1 (by decide)⟩⟩

/-- Counterexample for C6: with two signals pending (`signal` twice on a fresh
pair) and no intervening signal between the two `try_wait` calls, the first
`try_wait` returns true and the second also returns true — the demand of the claim that
the second must return false regardless of how many signals were pending
before the first call is false on the code. -/
theorem waitx_C6_cex :
    (Waiter.tryWait (Waker.signal (Waker.signal pairInit))).1 = true ∧
      (Waiter.tryWait
        (Waiter.tryWait (Waker.signal (Waker.signal pairInit))).2).1 = true := by
  decide

/-- Claim C6 (amended): for two consecutive `try_wait` calls with no
intervening signal, the second returns true iff at least two signals were
pending before the first call (`counter ≥ next_ticket + 2`); in particular the
second must return false whenever at most one signal was pending, but not in
general. -/
theorem waitx_C6_amended (s : PairState) (h : s.next + 2 < U64) :
    (Waiter.tryWait (Waiter.tryWait s).2).1 = true ↔ s.next + 2 ≤ s.counter := by
  have h1 : (s.next + 1) % U64 = s.next + 1 := Nat.mod_eq_of_lt (by omega)
  have h2 : (s.next + 1 + 1) % U64 = s.next + 2 := by
    rw [Nat.mod_eq_of_lt (by omega)]
  by_cases hc : s.next + 1 ≤ s.counter
  · simp only [Waiter.tryWait, h1, if_pos hc, h2]
    by_cases hc2 : s.next + 2 ≤ s.counter
    · simp [hc2]
    · simp [hc2]
  · simp [Waiter.tryWait, h1, hc]
    omega

/-- Witness for C6 (amended) at the fresh pair: no signal pending, so the
second `try_wait` does not return true. -/
theorem waitx_C6_amended_witness :
    pairInit.next + 2 < U64 ∧
      ((Waiter.tryWait (Waiter.tryWait pairInit).2).1 = true ↔
        pairInit.next + 2 ≤ pairInit.counter) :=
  ⟨by decide, waitx_C6_amended pairInit (by decide)⟩

/-- Claim C2: if `signal` has been called `K ≥ 1` times on a balanced pair
(`counter = next_ticket`, i.e. no pending unconsumed signal) and no wait has
consumed those signals, then the next `K` calls to `wait`/`wait_with_tuning`
all return, each consuming one ticket; the first of them returns on the
fast-path check without entering `wait_until_with_tuning` at all (its trace is
the single fast check, for any tuning); and `wait` returns only when its
target is reached (`counter ≥ target` on the returning state). -/
theorem waitx_C2 (s : PairState) (K busy yld fuel : Nat) (hK : 1 ≤ K)
    (hbal : s.counter = s.next) (hov : s.next + K < U64) :
    waitN K (signalN K s) = some { signalN K s with next := s.next + K } ∧
      waitRun (fun _ => (signalN K s).counter) ((s.next + 1) % U64) busy yld fuel =
        ⟨[⟨WaitPhase.fastCheck, false⟩], true, false⟩ ∧
      (∀ u r, Waiter.waitStep u = some r → (u.next + 1) % U64 ≤ r.counter) := by
  have hb : s.counter + K < U64 := by omega
  obtain ⟨hc, hn, hw⟩ := signalN_spec K s hb
  refine ⟨?_, ?_, ?_⟩
  · have := waitN_spec K (signalN K s) (by rw [hc, hn]; omega) (by rw [hc]; omega)
    rw [this, hn]
  · have h1 : (s.next + 1) % U64 = s.next + 1 := Nat.mod_eq_of_lt (by omega)
    have hle : (s.next + 1) % U64 ≤ (signalN K s).counter := by
      rw [h1, hc]; omega
    simp [waitRun, hle]
  · intro u r hur
    by_cases h : (u.next + 1) % U64 ≤ u.counter
    · simp [Waiter.waitStep, h] at hur
      rw [← hur]
      exact h
    · simp [Waiter.waitStep, h] at hur

/-- Witness for C2: two signals on a fresh pair, then two waits, both
returning; hypotheses discharged at `K = 2`. -/
theorem waitx_C2_witness :
    (1 ≤ 2 ∧ pairInit.counter = pairInit.next ∧ pairInit.next + 2 < U64) ∧
      waitN 2 (signalN 2 pairInit) =
        some { signalN 2 pairInit with next := pairInit.next + 2 } :=
  ⟨⟨by decide, by decide, by decide⟩,
    (waitx_C2 pairInit 2 0 0 0 (by decide) (by decide) (by decide)).1⟩

lemma waitRun_trace_mem (cs : Nat → Nat) (target busy yld fuel : Nat) :
    ∀ o ∈ (waitRun cs target busy yld fuel).trace,
      o = ⟨WaitPhase.fastCheck, false⟩ ∨
        (o.phase ≠ WaitPhase.fastCheck ∧ o.waitingFlag = true) := by
  intro o ho
  by_cases h0 : target ≤ cs 0
  · simp [waitRun, h0] at ho
    exact Or.inl ho
  · by_cases h1 : (spinChecks cs target WaitPhase.busySpin 1 busy).2.1 = true
    · simp [waitRun, h0, h1] at ho
      rcases ho with ho | ho
      · exact Or.inl ho
      · have hmem := spinChecks_mem cs target WaitPhase.busySpin busy 1 o ho
        right
        rw [hmem]
        exact ⟨by simp, rfl⟩
    · by_cases h2 : (spinChecks cs target WaitPhase.yieldSpin
          (spinChecks cs target WaitPhase.busySpin 1 busy).2.2 yld).2.1 = true
      · simp [waitRun, h0, h1, h2] at ho
        rcases ho with ho | ho | ho
        · exact Or.inl ho
        · have hmem := spinChecks_mem cs target WaitPhase.busySpin busy 1 o ho
          right; rw [hmem]; exact ⟨by simp, rfl⟩
        · have hmem := spinChecks_mem cs target WaitPhase.yieldSpin yld
            (spinChecks cs target WaitPhase.busySpin 1 busy).2.2 o ho
          right; rw [hmem]; exact ⟨by simp, rfl⟩
      · simp [waitRun, h0, h1, h2] at ho
        rcases ho with ho | ho | ho | ho
        · exact Or.inl ho
        · have hmem := spinChecks_mem cs target WaitPhase.busySpin busy 1 o ho
          right; rw [hmem]; exact ⟨by simp, rfl⟩
        · have hmem := spinChecks_mem cs target WaitPhase.yieldSpin yld
            (spinChecks cs target WaitPhase.busySpin 1 busy).2.2 o ho
          right; rw [hmem]; exact ⟨by simp, rfl⟩
        · have hmem := spinChecks_mem cs target WaitPhase.blockPhase (2 * fuel)
            (spinChecks cs target WaitPhase.yieldSpin
              (spinChecks cs target WaitPhase.busySpin 1 busy).2.2 yld).2.2 o ho
          right; rw [hmem]; exact ⟨by simp, rfl⟩

lemma waitRun_flagEnd (cs : Nat → Nat) (target busy yld fuel : Nat) :
    (waitRun cs target busy yld fuel).flagEnd =
      !(waitRun cs target busy yld fuel).returned := by
  by_cases h0 : target ≤ cs 0
  · simp [waitRun, h0]
  · by_cases h1 : (spinChecks cs target WaitPhase.busySpin 1 busy).2.1 = true
    · simp [waitRun, h0, h1]
    · by_cases h2 : (spinChecks cs target WaitPhase.yieldSpin
          (spinChecks cs target WaitPhase.busySpin 1 busy).2.2 yld).2.1 = true
      · simp [waitRun, h0, h1, h2]
      · by_cases h3 : (spinChecks cs target WaitPhase.blockPhase
            (spinChecks cs target WaitPhase.yieldSpin
              (spinChecks cs target WaitPhase.busySpin 1 busy).2.2 yld).2.2 (2 * fuel)).2.1 = true
        · simp [waitRun, h0, h1, h2, h3]
        · simp [waitRun, h0, h1, h2, h3]

/-- Counterexample for C8: with `busy_iters = 1`, a target that is never
reached, and one futex iteration of fuel, the run of `wait_with_tuning` makes
its busy-spin check while the `waiting` flag is already true — the
`WaitingGuard` is created before `wait_until_with_tuning` starts, so the flag
is set during the busy-spin and yield phases too, refuting the claim that it
is true only while suspended in the blocking phase. -/
theorem waitx_C8_cex :
    waitRun (fun _ => 0) 1 1 0 1 =
      ⟨[⟨WaitPhase.fastCheck, false⟩, ⟨WaitPhase.busySpin, true⟩,
        ⟨WaitPhase.blockPhase, true⟩, ⟨WaitPhase.blockPhase, true⟩], false, true⟩ ∧
      ⟨WaitPhase.busySpin, true⟩ ∈ (waitRun (fun _ => 0) 1 1 0 1).trace := by
  decide

/-- Claim C8 (amended): during a run of `wait`/`wait_with_tuning` the
`waiting` flag is false at the fast-path check and true at every check of the
adaptive wait procedure — throughout the busy-spin, yield and blocking phases
alike, not only while suspended in the blocking phase — and on every return
path the flag has been reset to false (guard drop; the fast path never set it). -/
theorem waitx_C8_amended (cs : Nat → Nat) (target busy yld fuel : Nat) :
    (∀ o ∈ (waitRun cs target busy yld fuel).trace,
        o.phase = WaitPhase.fastCheck → o.waitingFlag = false) ∧
      (∀ o ∈ (waitRun cs target busy yld fuel).trace,
        o.phase ≠ WaitPhase.fastCheck → o.waitingFlag = true) ∧
      ((waitRun cs target busy yld fuel).returned = true →
        (waitRun cs target busy yld fuel).flagEnd = false) := by
  refine ⟨?_, ?_, ?_⟩
  · intro o ho hph
    rcases waitRun_trace_mem cs target busy yld fuel o ho with h | h
    · rw [h]
    · exact absurd hph h.1
  · intro o ho hph
    rcases waitRun_trace_mem cs target busy yld fuel o ho with h | h
    · rw [h] at hph; simp at hph
    · exact h.2
  · intro hr
    rw [waitRun_flagEnd, hr]
    rfl

/-- Witness for C8 (amended): in the concrete blocked run, the busy-spin
observation has the flag true; in a fast-path run, the flag ends false. -/
theorem waitx_C8_amended_witness :
    ((⟨WaitPhase.busySpin, true⟩ : WaitObs) ∈ (waitRun (fun _ => 0) 1 1 0 1).trace ∧
      (⟨WaitPhase.busySpin, true⟩ : WaitObs).waitingFlag = true) ∧
      ((waitRun (fun _ => 1) 1 1 0 1).returned = true ∧
        (waitRun (fun _ => 1) 1 1 0 1).flagEnd = false) :=
  ⟨⟨by decide,
      (waitx_C8_amended (fun _ => 0) 1 1 0 1).2.1 ⟨WaitPhase.busySpin, true⟩
        (by decide) (by decide)⟩,
    ⟨by decide, (waitx_C8_amended (fun _ => 1) 1 1 0 1).2.2 (by decide)⟩⟩

lemma runPingPong_complete {α : Type} (vs : List α) : ∀ (c : Chan α),
    c.drain.counter = c.drain.next + 1 →
    c.fill.counter = c.fill.next →
    c.drain.next + 1 + vs.length < U64 →
    c.fill.next + vs.length < U64 →
    runPingPong c vs = some vs := by
  induction vs with
  | nil =>
    intro c _ _ _ _
    simp [runPingPong]
  | cons v vs ih =>
    intro c hd hf hdb hfb
    simp only [List.length_cons] at hdb hfb
    have hdn : (c.drain.next + 1) % U64 = c.drain.next + 1 := Nat.mod_eq_of_lt (by omega)
    have hfn : (c.fill.next + 1) % U64 = c.fill.next + 1 := Nat.mod_eq_of_lt (by omega)
    have hfc : (c.fill.counter + 1) % U64 = c.fill.next + 1 := by rw [hf]; exact hfn
    have hdc : (c.drain.counter + 1) % U64 = c.drain.next + 2 := by
      rw [hd]; exact Nat.mod_eq_of_lt (by omega)
    have hsend : sendOp c v = some ⟨some v, true, Waker.signal c.fill,
        ⟨c.drain.counter, c.drain.wakeWord, c.drain.waiting, c.drain.next + 1⟩⟩ := by
      simp [sendOp, Waiter.waitStep, hdn, hd]
    have hrecv : recvOp (⟨some v, true, Waker.signal c.fill,
          ⟨c.drain.counter, c.drain.wakeWord, c.drain.waiting, c.drain.next + 1⟩⟩ : Chan α) =
        some (v, ⟨some v, false,
          ⟨c.fill.next + 1, (c.fill.wakeWord + 1) % U32, c.fill.waiting, c.fill.next + 1⟩,
          ⟨c.drain.next + 2, (c.drain.wakeWord + 1) % U32, c.drain.waiting, c.drain.next + 1⟩⟩) := by
      simp [recvOp, Waiter.waitStep, Waker.signal, hfn, hfc, hdc]
    have hrest := ih ⟨some v, false,
        ⟨c.fill.next + 1, (c.fill.wakeWord + 1) % U32, c.fill.waiting, c.fill.next + 1⟩,
        ⟨c.drain.next + 2, (c.drain.wakeWord + 1) % U32, c.drain.waiting, c.drain.next + 1⟩⟩
      (by simp) (by simp) (by simp; omega) (by simp; omega)
    simp only [runPingPong, hsend, hrecv, hrest]

/-- Claim C3: driving the channel with an alternating `send`/`recv` sequence,
the `N`-th `recv` returns exactly the value passed to the `N`-th `send` (the
full list of received values equals the list of sent values), and in
particular `send v; recv()` yields `v`. The length bound keeps the `u64`
event counters away from their wrap-around, which a real execution cannot
reach. -/
theorem waitx_C3 {α : Type} (vs : List α) (v : α) (h : vs.length + 1 < U64) :
    runPingPong (chanInit : Chan α) vs = some vs ∧
      runPingPong (chanInit : Chan α) [v] = some [v] := by
  have h1 : ((0 : Nat) + 1) % U64 = 1 := by decide
  constructor
  · apply runPingPong_complete
    · simp [chanInit, Waker.signal, pairInit, h1]
    · simp [chanInit, pairInit]
    · simp [chanInit, Waker.signal, pairInit]; omega
    · simp [chanInit, pairInit]; omega
  · apply runPingPong_complete
    · simp [chanInit, Waker.signal, pairInit, h1]
    · simp [chanInit, pairInit]
    · simp [chanInit, Waker.signal, pairInit]
      have : (2 : Nat) < U64 := by decide
      omega
    · simp [chanInit, pairInit]
      have : (1 : Nat) < U64 := by decide
      omega

/-- Witness for C3: a three-element exchange and a singleton round trip on a
fresh `Nat` channel. -/
theorem waitx_C3_witness :
    ([1, 2, 3] : List Nat).length + 1 < U64 ∧
      (runPingPong (chanInit : Chan Nat) [1, 2, 3] = some [1, 2, 3] ∧
        runPingPong (chanInit : Chan Nat) [5] = some [5]) :=
  ⟨by decide, waitx_C3 [1, 2, 3] 5 (by decide)⟩

/-- Claim C4: `channel()` hands out a pair whose drain-pair has been signaled
exactly once (one `signal` on a fresh pair; the fill-pair is untouched), so
the first `send` on a fresh channel finds its drain ticket already satisfied
and returns without blocking, and the first `try_send` succeeds. -/
theorem waitx_C4 {α : Type} (v : α) :
    (chanInit : Chan α).drain = Waker.signal pairInit ∧
      (chanInit : Chan α).fill = pairInit ∧
      (chanInit : Chan α).drain.counter = 1 ∧
      sendOp (chanInit : Chan α) v =
        some ⟨some v, true, ⟨1, 1, false, 0⟩, ⟨1, 1, false, 1⟩⟩ ∧
      (trySendOp (chanInit : Chan α) v).1 = Except.ok () := by
  refine ⟨rfl, rfl, ?_, ?_, ?_⟩
  · show ((0 : Nat) + 1) % U64 = 1
    decide
  · have h1 : ((0 : Nat) + 1) % U64 = 1 := by decide
    have h2 : ((0 : Nat) + 1) % U32 = 1 := by decide
    simp [sendOp, Waiter.waitStep, chanInit, Waker.signal, pairInit, h1, h2]
  · have h1 : ((0 : Nat) + 1) % U64 = 1 := by decide
    simp [trySendOp, Waiter.tryWait, chanInit, Waker.signal, pairInit, h1]

/-- Claim C5: when `try_send(v)` fails (the drain-pair `try_wait` returns
false), it returns the exact value `v` as the error and the whole channel
state — slot contents, `full` flag, both wake-pairs with their counters, wake
words, flags and tickets — is returned unchanged. -/
theorem waitx_C5 {α : Type} (c : Chan α) (v : α)
    (h : (Waiter.tryWait c.drain).1 = false) :
    trySendOp c v = (Except.error v, c) := by
  simp [trySendOp, h]

/-- Witness for C5: on a channel whose slot is already occupied (the state a
fresh channel reaches after one `send`), `try_send 2` fails, gives 2 back and
leaves the state identical. -/
theorem waitx_C5_witness :
    (Waiter.tryWait (⟨some 1, true, ⟨1, 1, false, 0⟩, ⟨1, 1, false, 1⟩⟩ : Chan Nat).drain).1
        = false ∧
      trySendOp (⟨some 1, true, ⟨1, 1, false, 0⟩, ⟨1, 1, false, 1⟩⟩ : Chan Nat) 2 =
        (Except.error 2, ⟨some 1, true, ⟨1, 1, false, 0⟩, ⟨1, 1, false, 1⟩⟩) :=
  ⟨by decide, waitx_C5 (⟨some 1, true, ⟨1, 1, false, 0⟩, ⟨1, 1, false, 1⟩⟩ : Chan Nat) 2
    (by decide)⟩

/-- Counterexample for C1: on a fresh channel (slot empty, drain ticket
pre-satisfied, receiver not parked so the fill-pair `waiting` flag is false),
`try_send 42` succeeds and fills the slot, but — unlike `send 42`, whose
accumulating `signal` leaves the fill counter at 1 — its conditional `wake`
leaves the fill-pair counter at 0, and a subsequent blocking `recv` does not
return (its target 1 can never be reached without a further signal). So
`try_send` does not perform the same state transition as `send`. -/
theorem waitx_C1_cex :
    (trySendOp (chanInit : Chan Nat) 42).1 = Except.ok () ∧
      (trySendOp (chanInit : Chan Nat) 42).2.slotVal = some 42 ∧
      (trySendOp (chanInit : Chan Nat) 42).2.full = true ∧
      (trySendOp (chanInit : Chan Nat) 42).2.fill.counter = 0 ∧
      sendOp (chanInit : Chan Nat) 42 =
        some ⟨some 42, true, ⟨1, 1, false, 0⟩, ⟨1, 1, false, 1⟩⟩ ∧
      recvOp (trySendOp (chanInit : Chan Nat) 42).2 = none := by
  decide

/-- Claim C1 (amended): whenever `send v` would succeed (slot drained, drain
ticket satisfied), `try_send v` succeeds with the same slot write, the same
`full` mark and the same drain-pair transition; its only divergence from
`send` is the fill-pair notification: it delegates to `signal` exactly when
the `waiting` flag of the receiver reads true (then the transition equals that of `send`),
and when the flag reads false the fill-pair — counter included — is left
unchanged, so the fill counter is not incremented as `send` would have done. -/
theorem waitx_C1_amended {α : Type} (c : Chan α) (v : α) (s : Chan α)
    (hs : sendOp c v = some s) :
    (trySendOp c v).1 = Except.ok () ∧
      (trySendOp c v).2.slotVal = s.slotVal ∧
      (trySendOp c v).2.full = s.full ∧
      (trySendOp c v).2.drain = s.drain ∧
      (c.fill.waiting = true → (trySendOp c v).2 = s) ∧
      (c.fill.waiting = false → (trySendOp c v).2.fill = c.fill) := by
  unfold sendOp at hs
  cases hw : Waiter.waitStep c.drain with
  | none => rw [hw] at hs; cases hs
  | some d =>
    rw [hw] at hs
    injection hs with hs
    have htw : Waiter.tryWait c.drain = (true, d) := by
      unfold Waiter.waitStep at hw
      unfold Waiter.tryWait
      by_cases h : (c.drain.next + 1) % U64 ≤ c.drain.counter
      · simp [h] at hw ⊢
        exact hw
      · simp [h] at hw
    have htry : trySendOp c v = (Except.ok (),
        { c with drain := d, slotVal := some v, full := true, fill := Waker.wake c.fill }) := by
      simp [trySendOp, htw]
    subst hs
    rw [htry]
    refine ⟨rfl, rfl, rfl, rfl, ?_, ?_⟩
    · intro hwt
      simp [Waker.wake, hwt]
    · intro hwf
      simp [Waker.wake, hwf]

/-- Witness for C1 (amended): on the fresh channel `send 7` succeeds, the
fill-pair `waiting` flag is false, and `try_send 7` leaves the fill-pair
untouched. -/
theorem waitx_C1_amended_witness :
    sendOp (chanInit : Chan Nat) 7 =
        some ⟨some 7, true, ⟨1, 1, false, 0⟩, ⟨1, 1, false, 1⟩⟩ ∧
      (chanInit : Chan Nat).fill.waiting = false ∧
      (trySendOp (chanInit : Chan Nat) 7).2.fill = (chanInit : Chan Nat).fill :=
  ⟨by decide, by decide,
    (waitx_C1_amended chanInit 7 ⟨some 7, true, ⟨1, 1, false, 0⟩, ⟨1, 1, false, 1⟩⟩
      (by decide)).2.2.2.2.2 (by decide)⟩

/-- Counterexample for C9: after `send 5` on a fresh channel, dropping only
the Receiver endpoint while the Sender is still alive destroys nothing — the
slot sits in an `Arc` whose other reference the Sender still holds — so the
drop count of the probe at that point is 0, not 1 as the claim states. -/
theorem waitx_C9_cex :
    sendOp (chanInit : Chan Nat) 5 =
        some ⟨some 5, true, ⟨1, 1, false, 0⟩, ⟨1, 1, false, 1⟩⟩ ∧
      dropsAfterReceiverDrop true (⟨some 5, true, ⟨1, 1, false, 0⟩, ⟨1, 1, false, 1⟩⟩ : Chan Nat)
        = 0 := by
  decide

/-- Claim C9 (amended): `Slot::drop` runs the destructor of the stored value
exactly once when the slot is destroyed while `full`, and not at all when
destroyed while empty; in the scenario `send(probe)` followed by dropping the
Receiver endpoint with the Sender still alive, the drop count of the probe is
still 0 — it becomes exactly 1 once the Sender endpoint is dropped as well
and the slot, full, is destroyed. -/
theorem waitx_C9_amended {α : Type} (c s : Chan α) (v : α) :
    (c.full = true → slotDropRuns c = 1) ∧
      (c.full = false → slotDropRuns c = 0) ∧
      (sendOp (chanInit : Chan α) v = some s →
        dropsAfterReceiverDrop true s = 0 ∧ dropsAfterReceiverDrop false s = 1) := by
  refine ⟨?_, ?_, ?_⟩
  · intro h
    simp [slotDropRuns, h]
  · intro h
    simp [slotDropRuns, h]
  · intro hs
    have hfull : s.full = true := by
      unfold sendOp at hs
      cases hw : Waiter.waitStep (chanInit : Chan α).drain with
      | none => rw [hw] at hs; cases hs
      | some d =>
        rw [hw] at hs
        injection hs with hs
        rw [← hs]
    simp [dropsAfterReceiverDrop, slotDropRuns, hfull]

/-- Witness for C9 (amended): the full-slot and empty-slot drop counts at
concrete states, and the `send 5; drop(rx)` scenario on a fresh channel. -/
theorem waitx_C9_amended_witness :
    ((⟨some 5, true, ⟨1, 1, false, 0⟩, ⟨1, 1, false, 1⟩⟩ : Chan Nat).full = true ∧
      slotDropRuns (⟨some 5, true, ⟨1, 1, false, 0⟩, ⟨1, 1, false, 1⟩⟩ : Chan Nat) = 1) ∧
      (sendOp (chanInit : Chan Nat) 5 =
          some ⟨some 5, true, ⟨1, 1, false, 0⟩, ⟨1, 1, false, 1⟩⟩ ∧
        dropsAfterReceiverDrop true
            (⟨some 5, true, ⟨1, 1, false, 0⟩, ⟨1, 1, false, 1⟩⟩ : Chan Nat) = 0 ∧
        dropsAfterReceiverDrop false
            (⟨some 5, true, ⟨1, 1, false, 0⟩, ⟨1, 1, false, 1⟩⟩ : Chan Nat) = 1) :=
  ⟨⟨by decide,
      (waitx_C9_amended (⟨some 5, true, ⟨1, 1, false, 0⟩, ⟨1, 1, false, 1⟩⟩ : Chan Nat)
        chanInit 5).1 (by decide)⟩,
    ⟨by decide,
      (waitx_C9_amended (chanInit : Chan Nat)
        (⟨some 5, true, ⟨1, 1, false, 0⟩, ⟨1, 1, false, 1⟩⟩ : Chan Nat) 5).2.2 (by decide)⟩⟩
